import Mathlib

/-!
Shallow embedding of the TabSync browser extension's sync engine
(`src/background/index.ts`) and its debounce helper (`src/lib/utils.ts`).

The engine is single-threaded and event-driven; we model each handler as a
pure function on an explicit `SyncState`.  JavaScript truthiness on optional
fields (`if (!deviceId)`, `if (command.tabId)`, `if (command.url)`,
`tab.url || ''`) is modelled explicitly, since the code relies on it.
-/

namespace TabSync

/-- JavaScript truthiness of an optional string: `undefined` and `""` are
falsy.  Returns the string exactly when it is truthy. -/
def jsTruthyStr : Option String → Option String
  | none => none
  | some s => if s = "" then none else some s

/-- The JS default operator `x || d` on an optional string, as used in
`tab.url || ''`, `tab.title || 'Untitled'`, `deviceName || 'Unknown Device'`:
`undefined` and `""` both fall through to the default. -/
def jsOrStr : Option String → String → String
  | none, d => d
  | some s, d => if s = "" then d else s

/-- A live browser tab as reported by `browser.tabs.query({})`.  In the
WebExtension API `id`, `url`, `title` and `favIconUrl` are optional. -/
structure BrowserTab where
  id : Option Nat
  url : Option String
  title : Option String
  favIconUrl : Option String
  windowId : Nat
  index : Nat
  active : Bool
  pinned : Bool
deriving Repr, DecidableEq

/-- One entry of the `tabsData` array built by `syncTabs`
(`src/background/index.ts` lines 63-72). -/
structure TabData where
  id : Option Nat
  url : String
  title : String
  favIconUrl : String
  windowId : Nat
  index : Nat
  active : Bool
  pinned : Bool
deriving Repr, DecidableEq

/-- The per-tab mapping of `syncTabs`: `{ id: tab.id, url: tab.url || '',
title: tab.title || 'Untitled', favIconUrl: tab.favIconUrl || '', ... }`. -/
def tabToData (t : BrowserTab) : TabData :=
  { id := t.id
    url := jsOrStr t.url ""
    title := jsOrStr t.title "Untitled"
    favIconUrl := jsOrStr t.favIconUrl ""
    windowId := t.windowId
    index := t.index
    active := t.active
    pinned := t.pinned }

/-- The device document written by `setDoc` at `devices/{deviceId}`
(`src/background/index.ts` lines 76-81).  `lastUpdated` is the
server-assigned timestamp, modelled as a `Nat` clock value. -/
structure DeviceDoc where
  deviceName : String
  lastUpdated : Nat
  tabs : List TabData
  tabCount : Nat
deriving Repr, DecidableEq

/-- A command document from `devices/{deviceId}/commands/{commandId}`.
Fields other than `action` are optional (absent in JS means `undefined`);
`fromDevice` is provenance only and is never read by the executor. -/
structure Command where
  action : String
  tabId : Option Nat := none
  url : Option String := none
  active : Option Bool := none
  fromDevice : Option String := none
deriving Repr, DecidableEq

/-- The three Firestore document-change types delivered to `onSnapshot`
listeners. -/
inductive ChangeType where
  | added
  | modified
  | removed
deriving Repr, DecidableEq

/-- One element of `snapshot.docChanges()`: a change type, the document id
and the document data. -/
structure DocChange where
  type : ChangeType
  docId : String
  data : Command
deriving Repr, DecidableEq

/-- The state the background script acts on: module-level flags
(`isInitialized`, the registered listeners), the local
`browser.storage.local` keys (`firebaseConfig`, `deviceId`, `deviceName`),
the live browser tabs, this device's Firestore document and its `commands`
subcollection (as a list of id/data pairs), and the server clock. -/
structure SyncState where
  isInitialized : Bool
  firebaseConfig : Option String
  deviceId : Option String
  deviceName : Option String
  browserTabs : List BrowserTab
  nextTabId : Nat
  device : Option DeviceDoc
  commands : List (String × Command)
  watcherActive : Bool
  commandListenerActive : Bool
  now : Nat
deriving Repr, DecidableEq

/-- `syncTabs` (`src/background/index.ts` lines 46-87): skip when Firebase
is not initialized; skip silently when `deviceId` is falsy; otherwise map
the current tabs through `tabToData` and replace the device document
(`setDoc` without merge) with fresh `deviceName`, `lastUpdated`, `tabs`,
`tabCount` fields. -/
def syncTabs (st : SyncState) : SyncState :=
  if st.isInitialized = false then st
  else
    match jsTruthyStr st.deviceId with
    | none => st
    | some _ =>
      let tabsData := st.browserTabs.map tabToData
      { st with
        device := some
          { deviceName := jsOrStr st.deviceName "Unknown Device"
            lastUpdated := st.now
            tabs := tabsData
            tabCount := tabsData.length } }

/-- Whether a browser tab with the given id currently exists. -/
def tabExists (tabs : List BrowserTab) (tid : Nat) : Bool :=
  tabs.any (fun t => t.id = some tid)

/-- `browser.tabs.remove(tid)`: removes the tab with that id, or rejects
when no such tab exists (the rejection is caught by the executor). -/
def tabsRemove (tabs : List BrowserTab) (tid : Nat) :
    Except String (List BrowserTab) :=
  if tabExists tabs tid then
    Except.ok (tabs.filter (fun t => t.id ≠ some tid))
  else
    Except.error "no tab with given id"

/-- `browser.tabs.create({url, active})`: the browser appends a fresh tab
with a fresh id at the end of the tab strip. -/
def freshTab (nid : Nat) (url : String) (active : Bool) (idx : Nat) :
    BrowserTab :=
  { id := some nid
    url := some url
    title := none
    favIconUrl := none
    windowId := 0
    index := idx
    active := active
    pinned := false }

/-- The `switch (command.action)` body of `executeCommand`
(`src/background/index.ts` lines 181-206): `closeTab` attempts a remove
only when `command.tabId` is truthy, catching and logging any failure;
`openTab` creates a tab only when `command.url` is truthy, with
`active: command.active || false`; any other action only logs a warning. -/
def execAction (st : SyncState) (cmd : Command) : SyncState :=
  if cmd.action = "closeTab" then
    match cmd.tabId with
    | some tid =>
      if tid = 0 then st
      else
        match tabsRemove st.browserTabs tid with
        | Except.ok tabs2 => { st with browserTabs := tabs2 }
        | Except.error _ => st
    | none => st
  else if cmd.action = "openTab" then
    match jsTruthyStr cmd.url with
    | some u =>
      { st with
        browserTabs := st.browserTabs ++
          [freshTab st.nextTabId u (cmd.active.getD false)
            st.browserTabs.length]
        nextTabId := st.nextTabId + 1 }
    | none => st
  else st

/-- `executeCommand` (`src/background/index.ts` lines 172-215): bail out
before doing anything when `deviceId` is falsy; otherwise run the action
switch and then, on every path out of the switch, delete the command
document `devices/{deviceId}/commands/{commandId}`. -/
def executeCommand (st : SyncState) (cmd : Command) (commandId : String) :
    SyncState :=
  match jsTruthyStr st.deviceId with
  | none => st
  | some _ =>
    let st1 := execAction st cmd
    { st1 with commands := st1.commands.filter (fun p => p.1 ≠ commandId) }

/-- The `onSnapshot` callback body (`src/background/index.ts` lines
145-158): a document change is acted on only when its type is `added`, in
which case the command is executed; `modified` and `removed` changes are
ignored. -/
def processDocChange (st : SyncState) (c : DocChange) : SyncState :=
  if c.type = ChangeType.added then executeCommand st c.data c.docId else st

/-- `startCommandListener` (`src/background/index.ts` lines 127-167):
tears down any existing subscription, then subscribes to this device's
`commands` collection only when `deviceId` is truthy. -/
def startCommandListener (st : SyncState) : SyncState :=
  match jsTruthyStr st.deviceId with
  | none => { st with commandListenerActive := false }
  | some _ => { st with commandListenerActive := true }

/-- `startTabWatcher` (`src/background/index.ts` lines 95-122): registers
the tab-event listeners and then performs an immediate initial `syncTabs()`
call, not routed through the debounce. -/
def startTabWatcher (st : SyncState) : SyncState :=
  syncTabs { st with watcherActive := true }

/-- The startup init function of the background script
(`src/background/index.ts` lines 14-41): no-op when already initialized or
when no Firebase config is stored; otherwise marks the engine initialized,
starts the tab watcher (which fires the immediate first sync) and then the
command listener. -/
def initEngine (st : SyncState) : SyncState :=
  if st.isInitialized then st
  else
    match st.firebaseConfig with
    | none => st
    | some _ =>
      startCommandListener (startTabWatcher { st with isInitialized := true })

/-- The fixed debounce quiescence window: `debounce(syncTabs, 2000)`
(`src/background/index.ts` line 90). -/
def debounceWait : Nat := 2000

/-- Trace semantics of `debounce` (`src/lib/utils.ts` lines 53-70) applied
to a time-ordered list of call instants: each call clears any pending
timer and schedules the wrapped function `wait` ms later; the pending timer
is cancelled exactly when the next call arrives strictly before it fires.
Returns the instants at which the wrapped function runs. -/
def fireTimes (wait : Nat) : List Nat → List Nat
  | [] => []
  | [t] => [t + wait]
  | t1 :: t2 :: rest =>
    if t2 < t1 + wait then fireTimes wait (t2 :: rest)
    else (t1 + wait) :: fireTimes wait (t2 :: rest)

/-- Each event of the trace arrives no earlier than the previous one and
strictly within the previous event's quiescence window. -/
def chainedWithin (wait : Nat) : List Nat → Bool
  | [] => true
  | [_] => true
  | t1 :: t2 :: rest =>
    (decide (t1 ≤ t2) && decide (t2 < t1 + wait)) &&
      chainedWithin wait (t2 :: rest)

/-- The snapshot writes produced by `debouncedSync` on an event trace:
whenever the debounced timer fires, `syncTabs` runs against the engine
state as of the firing instant (it re-queries the tabs then), given by
`stateAt`. -/
def debouncedSyncRuns (stateAt : Nat → SyncState) (events : List Nat) :
    List SyncState :=
  (fireTimes debounceWait events).map (fun f => syncTabs (stateAt f))

/-- The `tabCount` consistency check on a stored device document. -/
def deviceCountOk : Option DeviceDoc → Bool
  | none => true
  | some d => d.tabCount = d.tabs.length

/-- A concrete browser tab used in witness instances. -/
def tabA : BrowserTab :=
  { id := some 1
    url := some "https://a.com"
    title := some "A"
    favIconUrl := none
    windowId := 0
    index := 0
    active := true
    pinned := false }

/-- A second concrete browser tab (with every optional field absent). -/
def tabB : BrowserTab :=
  { id := some 2
    url := none
    title := none
    favIconUrl := none
    windowId := 0
    index := 1
    active := false
    pinned := false }

/-- A concrete running engine state with a registered device, two open
tabs and one pending command, used in witness instances. -/
def sampleState : SyncState :=
  { isInitialized := true
    firebaseConfig := some "cfg"
    deviceId := some "deviceA"
    deviceName := some "Desk"
    browserTabs := [tabA, tabB]
    nextTabId := 3
    device := none
    commands := [("cmd1", { action := "closeTab", tabId := some 1 })]
    watcherActive := true
    commandListenerActive := true
    now := 7 }

/-- `sampleState` with a falsy (empty-string) device id. -/
def sampleEmptyId : SyncState := { sampleState with deviceId := some "" }

/-- `sampleState` before the engine has been initialized. -/
def sampleFresh : SyncState :=
  { sampleState with isInitialized := false, device := none }

/-- A concrete `closeTab` command targeting tab 1. -/
def closeCmd1 : Command := { action := "closeTab", tabId := some 1 }

/-! ## Helper lemmas -/

/-- Deleting a document id from a collection really removes it: the id of
the deleted document no longer occurs among the remaining document ids. -/
theorem notMem_map_fst_filter_ne (l : List (String × Command)) (cid : String) :
    cid ∉ (l.filter (fun p => p.1 ≠ cid)).map Prod.fst := by
  intro h
  obtain ⟨p, hp, hfst⟩ := List.mem_map.mp h
  have := List.of_mem_filter hp
  simp only [decide_eq_true_eq] at this
  exact this hfst

/-- `executeCommand` never touches the local device identity. -/
theorem executeCommand_deviceId (st : SyncState) (cmd : Command)
    (cid : String) : (executeCommand st cmd cid).deviceId = st.deviceId := by
  unfold executeCommand execAction
  cases h : jsTruthyStr st.deviceId <;> simp only
  repeat' split
  all_goals rfl

/-- On a chained trace the debounce timer is cancelled and rescheduled by
every event except the last, so the wrapped function runs exactly once,
one full window after the final event. -/
theorem fireTimes_chained (wait : Nat) :
    ∀ (l : List Nat) (t : Nat), chainedWithin wait l = true →
      l.getLast? = some t → fireTimes wait l = [t + wait]
  | [], t, _, hlast => by simp at hlast
  | [a], t, _, hlast => by
    simp only [List.getLast?_singleton, Option.some.injEq] at hlast
    simp [fireTimes, hlast]
  | a :: b :: rest, t, hchain, hlast => by
    simp only [chainedWithin, Bool.and_eq_true, decide_eq_true_eq] at hchain
    obtain ⟨⟨_, hlt⟩, hrest⟩ := hchain
    rw [List.getLast?_cons_cons] at hlast
    have ih := fireTimes_chained wait (b :: rest) t hrest hlast
    simp [fireTimes, hlt, ih]

/-- Core of every at-most-once argument: whenever `executeCommand` runs
with a truthy device id, the processed command id is gone afterwards. -/
theorem executeCommand_deletes (st : SyncState) (cmd : Command) (cid : String)
    (hdev : (jsTruthyStr st.deviceId).isSome) :
    cid ∉ ((executeCommand st cmd cid).commands.map Prod.fst) := by
  obtain ⟨d, hd⟩ := Option.isSome_iff_exists.mp hdev
  unfold executeCommand
  rw [hd]
  exact notMem_map_fst_filter_ne _ _

/-- Executing an `openTab` command with a truthy url grows the tab strip
by exactly one tab. -/
theorem executeCommand_openTab_length (st : SyncState) (cmd : Command)
    (cid u : String) (hdev : (jsTruthyStr st.deviceId).isSome)
    (hact : cmd.action = "openTab") (hurl : jsTruthyStr cmd.url = some u) :
    (executeCommand st cmd cid).browserTabs.length =
      st.browserTabs.length + 1 := by
  obtain ⟨d, hd⟩ := Option.isSome_iff_exists.mp hdev
  unfold executeCommand execAction
  rw [hd, hact, hurl]
  simp

/-- A `closeTab` command whose target tab exists removes exactly the tabs
with that id and then deletes the command document. -/
theorem executeCommand_closeTab_hit (st : SyncState) (cmd : Command)
    (cid : String) (tid : Nat) (hdev : (jsTruthyStr st.deviceId).isSome)
    (hact : cmd.action = "closeTab") (htab : cmd.tabId = some tid)
    (htid : tid ≠ 0) (hex : tabExists st.browserTabs tid = true) :
    executeCommand st cmd cid =
      { st with
        browserTabs := st.browserTabs.filter (fun t => t.id ≠ some tid)
        commands := st.commands.filter (fun p => p.1 ≠ cid) } := by
  obtain ⟨d, hd⟩ := Option.isSome_iff_exists.mp hdev
  unfold executeCommand execAction tabsRemove
  rw [hd, hact, htab]
  simp [htid, hex]

/-- A `closeTab` command whose target tab is gone leaves the browser
untouched (the rejected remove is caught) and still deletes the command
document. -/
theorem executeCommand_closeTab_gone (st : SyncState) (cmd : Command)
    (cid : String) (tid : Nat) (hdev : (jsTruthyStr st.deviceId).isSome)
    (hact : cmd.action = "closeTab") (htab : cmd.tabId = some tid)
    (htid : tid ≠ 0) (hex : tabExists st.browserTabs tid = false) :
    executeCommand st cmd cid =
      { st with commands := st.commands.filter (fun p => p.1 ≠ cid) } := by
  obtain ⟨d, hd⟩ := Option.isSome_iff_exists.mp hdev
  unfold executeCommand execAction tabsRemove
  rw [hd, hact, htab]
  simp [htid, hex]

/-- After filtering out every tab with a given id, no tab with that id
exists. -/
theorem tabExists_filter_ne (tabs : List BrowserTab) (tid : Nat) :
    tabExists (tabs.filter (fun t => t.id ≠ some tid)) tid = false := by
  simp only [tabExists, List.any_eq_false, List.mem_filter,
    decide_eq_true_eq, and_imp]
  intro t _ hne
  simpa using hne

/-! ## Claim theorems -/

/-- C7: if no (truthy) `deviceId` is registered when a snapshot write is
triggered, `syncTabs` is skipped silently: the whole state, in particular
the remote store, is left unchanged, and no error is raised (the function
returns normally). -/
theorem sync_skipped_without_device (st : SyncState)
    (h : jsTruthyStr st.deviceId = none) : syncTabs st = st := by
  simp [syncTabs, h]

theorem sync_skipped_without_device_witness :
    jsTruthyStr sampleEmptyId.deviceId = none ∧
    syncTabs sampleEmptyId = sampleEmptyId :=
  ⟨by decide, sync_skipped_without_device sampleEmptyId (by decide)⟩

/-- C6: after every snapshot write the stored device document exists and
satisfies `tabCount = tabs.length`; the writer re-establishes the
invariant on each write. -/
theorem tabCount_matches_tabs (st : SyncState)
    (hinit : st.isInitialized = true)
    (hdev : (jsTruthyStr st.deviceId).isSome) :
    (syncTabs st).device.isSome ∧ deviceCountOk (syncTabs st).device = true := by
  obtain ⟨d, hd⟩ := Option.isSome_iff_exists.mp hdev
  constructor <;> simp [syncTabs, hinit, hd, deviceCountOk]

theorem tabCount_matches_tabs_witness :
    sampleState.isInitialized = true ∧
    ((syncTabs sampleState).device.isSome ∧
      deviceCountOk (syncTabs sampleState).device = true) :=
  ⟨rfl, tabCount_matches_tabs sampleState rfl (by decide)⟩

/-- C4: a snapshot write fully replaces the device document's `tabs`: for
any prior stored document (including one adopted from another browser,
the takeover case), the document after `syncTabs` holds exactly the
current browser tabs mapped through `tabToData`, independent of the prior
contents. -/
theorem snapshot_full_replacement (st : SyncState) (prior : Option DeviceDoc)
    (hinit : st.isInitialized = true)
    (hdev : (jsTruthyStr st.deviceId).isSome) :
    (syncTabs { st with device := prior }).device =
      some
        { deviceName := jsOrStr st.deviceName "Unknown Device"
          lastUpdated := st.now
          tabs := st.browserTabs.map tabToData
          tabCount := (st.browserTabs.map tabToData).length } := by
  obtain ⟨d, hd⟩ := Option.isSome_iff_exists.mp hdev
  simp [syncTabs, hinit, hd]

theorem snapshot_full_replacement_witness :
    sampleState.isInitialized = true ∧
    (jsTruthyStr sampleState.deviceId).isSome ∧
    (syncTabs { sampleState with device := some (DeviceDoc.mk "Old" 0
        [TabData.mk (some 9) "https://old.com" "Old" "" 0 0 false false]
        1) }).device =
      some
        { deviceName := jsOrStr sampleState.deviceName "Unknown Device"
          lastUpdated := sampleState.now
          tabs := sampleState.browserTabs.map tabToData
          tabCount := (sampleState.browserTabs.map tabToData).length } :=
  ⟨rfl, by decide, snapshot_full_replacement sampleState _ rfl (by decide)⟩

/-- C9: on the first successful initialization after startup (engine not
yet initialized, config present, device registered), an immediate
snapshot write occurs: `initEngine` itself leaves the device document
written with `lastUpdated` equal to the current instant `st.now`, without
waiting for any tab event or for the 2000 ms debounce window. -/
theorem initial_sync_immediate (st : SyncState) (c : String)
    (hfresh : st.isInitialized = false) (hcfg : st.firebaseConfig = some c)
    (hdev : (jsTruthyStr st.deviceId).isSome) :
    (initEngine st).device =
      some
        { deviceName := jsOrStr st.deviceName "Unknown Device"
          lastUpdated := st.now
          tabs := st.browserTabs.map tabToData
          tabCount := (st.browserTabs.map tabToData).length } := by
  obtain ⟨d, hd⟩ := Option.isSome_iff_exists.mp hdev
  simp [initEngine, hfresh, hcfg, startCommandListener, startTabWatcher,
    syncTabs, hd]

theorem initial_sync_immediate_witness :
    sampleFresh.isInitialized = false ∧
    sampleFresh.firebaseConfig = some "cfg" ∧
    (initEngine sampleFresh).device =
      some
        { deviceName := jsOrStr sampleFresh.deviceName "Unknown Device"
          lastUpdated := sampleFresh.now
          tabs := sampleFresh.browserTabs.map tabToData
          tabCount := (sampleFresh.browserTabs.map tabToData).length } :=
  ⟨rfl, rfl, initial_sync_immediate sampleFresh "cfg" rfl rfl (by decide)⟩

/-- C2: after the local browser action is attempted, the command document
is deleted regardless of the action's outcome: deletion holds for every
command (first conjunct), and in particular a `closeTab` whose target tab
no longer exists fails silently, changes no tab, and its command is still
deleted (second conjunct).  No retry exists: the executor is a single
pass ending in the delete. -/
theorem command_deleted_after_attempt :
    (∀ (st : SyncState) (cmd : Command) (cid : String),
      (jsTruthyStr st.deviceId).isSome →
      cid ∉ ((executeCommand st cmd cid).commands.map Prod.fst)) ∧
    (∀ (st : SyncState) (cmd : Command) (cid : String) (tid : Nat),
      (jsTruthyStr st.deviceId).isSome →
      cmd.action = "closeTab" → cmd.tabId = some tid → tid ≠ 0 →
      tabExists st.browserTabs tid = false →
      (executeCommand st cmd cid).browserTabs = st.browserTabs ∧
      cid ∉ ((executeCommand st cmd cid).commands.map Prod.fst)) := by
  refine ⟨fun st cmd cid hdev => executeCommand_deletes st cmd cid hdev,
    fun st cmd cid tid hdev hact htab htid hex => ?_⟩
  obtain ⟨d, hd⟩ := Option.isSome_iff_exists.mp hdev
  have hexec : executeCommand st cmd cid =
      { st with commands := st.commands.filter (fun p => p.1 ≠ cid) } := by
    unfold executeCommand execAction tabsRemove
    rw [hd, hact, htab]
    simp [htid, hex]
  rw [hexec]
  exact ⟨rfl, notMem_map_fst_filter_ne _ _⟩

theorem command_deleted_after_attempt_witness :
    ((jsTruthyStr sampleState.deviceId).isSome ∧
      "cmd1" ∉ ((executeCommand sampleState
        (Command.mk "openTab" none (some "https://b.com") none none)
        "cmd1").commands.map Prod.fst)) ∧
    (tabExists sampleState.browserTabs 5 = false ∧
      ((executeCommand sampleState
          (Command.mk "closeTab" (some 5) none none none)
          "cmd1").browserTabs = sampleState.browserTabs ∧
        "cmd1" ∉ ((executeCommand sampleState
          (Command.mk "closeTab" (some 5) none none none)
          "cmd1").commands.map Prod.fst))) :=
  ⟨⟨by decide, command_deleted_after_attempt.1 sampleState _ "cmd1" (by decide)⟩,
   by decide,
   command_deleted_after_attempt.2 sampleState _ "cmd1" 5 (by decide) rfl rfl
     (by decide) (by decide)⟩

/-- C5: a command whose `action` is outside the two known values performs
no browser action (tabs, fresh-id counter and device document unchanged),
returns normally, and still deletes its command document. -/
theorem unknown_action_safe (st : SyncState) (cmd : Command) (cid : String)
    (hdev : (jsTruthyStr st.deviceId).isSome)
    (h1 : cmd.action ≠ "closeTab") (h2 : cmd.action ≠ "openTab") :
    (executeCommand st cmd cid).browserTabs = st.browserTabs ∧
    (executeCommand st cmd cid).nextTabId = st.nextTabId ∧
    (executeCommand st cmd cid).device = st.device ∧
    (executeCommand st cmd cid).commands =
      st.commands.filter (fun p => p.1 ≠ cid) ∧
    cid ∉ ((executeCommand st cmd cid).commands.map Prod.fst) := by
  obtain ⟨d, hd⟩ := Option.isSome_iff_exists.mp hdev
  have hexec : executeCommand st cmd cid =
      { st with commands := st.commands.filter (fun p => p.1 ≠ cid) } := by
    unfold executeCommand execAction
    rw [hd]
    simp [h1, h2]
  rw [hexec]
  exact ⟨rfl, rfl, rfl, rfl, notMem_map_fst_filter_ne _ _⟩

theorem unknown_action_safe_witness :
    (jsTruthyStr sampleState.deviceId).isSome ∧
    ((executeCommand sampleState (Command.mk "renameTab" none none none none)
        "cmd7").browserTabs = sampleState.browserTabs ∧
      (executeCommand sampleState (Command.mk "renameTab" none none none none)
        "cmd7").nextTabId = sampleState.nextTabId ∧
      (executeCommand sampleState (Command.mk "renameTab" none none none none)
        "cmd7").device = sampleState.device ∧
      (executeCommand sampleState (Command.mk "renameTab" none none none none)
        "cmd7").commands =
        sampleState.commands.filter (fun p => p.1 ≠ "cmd7") ∧
      "cmd7" ∉ ((executeCommand sampleState
        (Command.mk "renameTab" none none none none)
        "cmd7").commands.map Prod.fst)) :=
  ⟨by decide, unknown_action_safe sampleState _ "cmd7" (by decide)
    (by decide) (by decide)⟩

/-- C10: a `closeTab` command whose `tabId` is missing or `0` (falsy in
JS), and an `openTab` command whose `url` is missing or empty, perform no
browser action at all, yet the command document is still deleted, exactly
as for unknown actions. -/
theorem falsy_payload_still_deleted (st : SyncState) (cmd : Command)
    (cid : String) (hdev : (jsTruthyStr st.deviceId).isSome)
    (hfalsy :
      (cmd.action = "closeTab" ∧ (cmd.tabId = none ∨ cmd.tabId = some 0)) ∨
      (cmd.action = "openTab" ∧ jsTruthyStr cmd.url = none)) :
    (executeCommand st cmd cid).browserTabs = st.browserTabs ∧
    (executeCommand st cmd cid).nextTabId = st.nextTabId ∧
    (executeCommand st cmd cid).commands =
      st.commands.filter (fun p => p.1 ≠ cid) ∧
    cid ∉ ((executeCommand st cmd cid).commands.map Prod.fst) := by
  obtain ⟨d, hd⟩ := Option.isSome_iff_exists.mp hdev
  have hexec : executeCommand st cmd cid =
      { st with commands := st.commands.filter (fun p => p.1 ≠ cid) } := by
    unfold executeCommand execAction
    rw [hd]
    rcases hfalsy with ⟨hact, htid | htid⟩ | ⟨hact, hurl⟩
    · rw [hact, htid]
      simp
    · rw [hact, htid]
      simp
    · rw [hact, hurl]
      simp
  rw [hexec]
  exact ⟨rfl, rfl, rfl, notMem_map_fst_filter_ne _ _⟩

theorem falsy_payload_still_deleted_witness :
    (jsTruthyStr sampleState.deviceId).isSome ∧
    ((executeCommand sampleState (Command.mk "closeTab" (some 0) none none none)
        "cmd9").browserTabs = sampleState.browserTabs ∧
      (executeCommand sampleState (Command.mk "closeTab" (some 0) none none none)
        "cmd9").nextTabId = sampleState.nextTabId ∧
      (executeCommand sampleState (Command.mk "closeTab" (some 0) none none none)
        "cmd9").commands =
        sampleState.commands.filter (fun p => p.1 ≠ "cmd9") ∧
      "cmd9" ∉ ((executeCommand sampleState
        (Command.mk "closeTab" (some 0) none none none)
        "cmd9").commands.map Prod.fst)) :=
  ⟨by decide, falsy_payload_still_deleted sampleState _ "cmd9" (by decide)
    (Or.inl ⟨rfl, Or.inr rfl⟩)⟩

/-- C8: two `closeTab` commands for the same tab id yield exactly one
effective close: the first removes the tab, after it no tab with that id
remains, the second attempt's `browser.tabs.remove` fails (silently
caught) and changes nothing, and both command documents are consumed. -/
theorem close_idempotent (st : SyncState) (cmd : Command)
    (id1 id2 : String) (tid : Nat)
    (hdev : (jsTruthyStr st.deviceId).isSome)
    (hact : cmd.action = "closeTab") (htab : cmd.tabId = some tid)
    (htid : tid ≠ 0)
    (hex : tabExists st.browserTabs tid = true) :
    (executeCommand st cmd id1).browserTabs =
      st.browserTabs.filter (fun t => t.id ≠ some tid) ∧
    tabExists (executeCommand st cmd id1).browserTabs tid = false ∧
    (executeCommand (executeCommand st cmd id1) cmd id2).browserTabs =
      (executeCommand st cmd id1).browserTabs ∧
    tabsRemove (executeCommand st cmd id1).browserTabs tid =
      Except.error "no tab with given id" ∧
    id1 ∉ ((executeCommand st cmd id1).commands.map Prod.fst) ∧
    id2 ∉ ((executeCommand (executeCommand st cmd id1) cmd id2).commands.map
      Prod.fst) := by
  have hexec1 := executeCommand_closeTab_hit st cmd id1 tid hdev hact htab
    htid hex
  have hfalse : tabExists (executeCommand st cmd id1).browserTabs tid =
      false := by
    rw [hexec1]
    exact tabExists_filter_ne _ _
  have hdev1 : (jsTruthyStr (executeCommand st cmd id1).deviceId).isSome := by
    rw [executeCommand_deviceId]
    exact hdev
  have hexec2 := executeCommand_closeTab_gone (executeCommand st cmd id1) cmd
    id2 tid hdev1 hact htab htid hfalse
  refine ⟨?_, hfalse, ?_, ?_, ?_, ?_⟩
  · rw [hexec1]
  · rw [hexec2]
  · unfold tabsRemove
    rw [hfalse]
    simp
  · rw [hexec1]
    exact notMem_map_fst_filter_ne _ _
  · rw [hexec2]
    exact notMem_map_fst_filter_ne _ _

theorem close_idempotent_witness :
    tabExists sampleState.browserTabs 1 = true ∧
    ((executeCommand sampleState closeCmd1 "c1").browserTabs =
        sampleState.browserTabs.filter (fun t => t.id ≠ some 1) ∧
      tabExists (executeCommand sampleState closeCmd1 "c1").browserTabs 1 =
        false ∧
      (executeCommand (executeCommand sampleState closeCmd1 "c1") closeCmd1
          "c2").browserTabs =
        (executeCommand sampleState closeCmd1 "c1").browserTabs ∧
      tabsRemove (executeCommand sampleState closeCmd1 "c1").browserTabs 1 =
        Except.error "no tab with given id" ∧
      "c1" ∉ ((executeCommand sampleState closeCmd1 "c1").commands.map
        Prod.fst) ∧
      "c2" ∉ ((executeCommand (executeCommand sampleState closeCmd1 "c1")
        closeCmd1 "c2").commands.map Prod.fst)) :=
  ⟨by decide, close_idempotent sampleState closeCmd1 "c1" "c2" 1 (by decide)
    rfl rfl (by decide) (by decide)⟩

/-- C1: at-most-once consumption from the queue.  (i) After the engine
processes an `added` change, that command's document id is gone from the
collection.  (ii) Changes of type `modified` or `removed` trigger no
action at all.  (iii) No deduplication: re-inserting a command with the
same field values under a fresh document id is processed independently —
two `added` changes carrying the same `openTab` data open two tabs. -/
theorem command_consumed_added_only :
    (∀ (st : SyncState) (c : DocChange),
      (jsTruthyStr st.deviceId).isSome → c.type = ChangeType.added →
      c.docId ∉ ((processDocChange st c).commands.map Prod.fst)) ∧
    (∀ (st : SyncState) (c : DocChange),
      c.type ≠ ChangeType.added → processDocChange st c = st) ∧
    (∀ (st : SyncState) (cmd : Command) (id1 id2 u : String),
      (jsTruthyStr st.deviceId).isSome → id1 ≠ id2 →
      cmd.action = "openTab" → jsTruthyStr cmd.url = some u →
      (processDocChange
        (processDocChange st (DocChange.mk ChangeType.added id1 cmd))
        (DocChange.mk ChangeType.added id2 cmd)).browserTabs.length =
        st.browserTabs.length + 2) := by
  refine ⟨fun st c hdev hadded => ?_, fun st c hother => ?_,
    fun st cmd id1 id2 u hdev hne hact hurl => ?_⟩
  · rw [processDocChange, if_pos hadded]
    exact executeCommand_deletes st c.data c.docId hdev
  · rw [processDocChange, if_neg hother]
  · have hdev1 : (jsTruthyStr (executeCommand st cmd id1).deviceId).isSome := by
      rw [executeCommand_deviceId]
      exact hdev
    have h1 := executeCommand_openTab_length st cmd id1 u hdev hact hurl
    have h2 := executeCommand_openTab_length (executeCommand st cmd id1) cmd
      id2 u hdev1 hact hurl
    have hred :
        processDocChange
          (processDocChange st (DocChange.mk ChangeType.added id1 cmd))
          (DocChange.mk ChangeType.added id2 cmd) =
        executeCommand (executeCommand st cmd id1) cmd id2 := rfl
    rw [hred, h2, h1]

theorem command_consumed_added_only_witness :
    ((jsTruthyStr sampleState.deviceId).isSome ∧
      "cmd1" ∉ ((processDocChange sampleState
        (DocChange.mk ChangeType.added "cmd1"
          (Command.mk "closeTab" (some 1) none none none))).commands.map
        Prod.fst)) ∧
    (processDocChange sampleState
      (DocChange.mk ChangeType.modified "cmd1"
        (Command.mk "closeTab" (some 1) none none none)) = sampleState) ∧
    ((processDocChange
      (processDocChange sampleState
        (DocChange.mk ChangeType.added "x1"
          (Command.mk "openTab" none (some "https://b.com") none none)))
      (DocChange.mk ChangeType.added "x2"
        (Command.mk "openTab" none (some "https://b.com") none
          none))).browserTabs.length = sampleState.browserTabs.length + 2) :=
  ⟨⟨by decide, command_consumed_added_only.1 sampleState _ (by decide) rfl⟩,
   command_consumed_added_only.2.1 sampleState _ (by decide),
   command_consumed_added_only.2.2 sampleState _ "x1" "x2" "https://b.com"
     (by decide) (by decide) rfl (by decide)⟩

/-- C3: debounce coalescing.  For a nonempty trace of qualifying
tab-change events in which each event arrives (in time order) strictly
within the 2000 ms quiescence window of the previous one, the debounced
`syncTabs` runs exactly once, exactly one full window after the final
event, against the engine state as of that firing instant — not as of any
triggering event. -/
theorem debounce_coalesces (stateAt : Nat → SyncState) (events : List Nat)
    (tlast : Nat) (hchain : chainedWithin debounceWait events = true)
    (hlast : events.getLast? = some tlast) :
    debouncedSyncRuns stateAt events =
      [syncTabs (stateAt (tlast + debounceWait))] := by
  unfold debouncedSyncRuns
  rw [fireTimes_chained debounceWait events tlast hchain hlast]
  simp

theorem debounce_coalesces_witness :
    chainedWithin debounceWait [3, 1000, 2500] = true ∧
    ([3, 1000, 2500].getLast? = some 2500) ∧
    debouncedSyncRuns (fun _ => sampleState) [3, 1000, 2500] =
      [syncTabs sampleState] :=
  ⟨by decide, by decide,
    debounce_coalesces (fun _ => sampleState) [3, 1000, 2500] 2500
      (by decide) (by decide)⟩

end TabSync
